import Mathlib

/-!
Shallow embedding of `pyatv/conf.py`: the `AppleTV` configuration class, its
service map, and the derived `DeviceInfo` aggregation.  Python dictionaries
are modelled as association lists with unique keys and insertion order, and
dictionary mutation (`dict.update`, in-place assignment) as pure functions
returning the new state.  `Optional[str]` becomes `Option String`, raising
`NoServiceError` becomes `Except NoServiceError`.
-/

namespace PyatvConf

/-- `pyatv.const.Protocol`: the closed set of protocol tags used as service keys. -/
inductive Protocol where
  | MRP
  | DMAP
  | AirPlay
deriving DecidableEq, Repr

/-- `pyatv.const.OperatingSystem` (the values used by `conf.py`). -/
inductive OperatingSystem where
  | Legacy
  | TvOS
  | Unknown
deriving DecidableEq, Repr

/-- A Python `Dict[str, str]`: association list, unique keys, insertion order. -/
abbrev Props := List (String × String)

/-- `d.get(k)` on a string dictionary: first (unique) matching key. -/
def dictGet : Props → String → Option String
  | [], _ => none
  | (k, v) :: rest, q => if k = q then some v else dictGet rest q

/-- `d[k] = v`: overwrite the value at an existing key in place, else append. -/
def dictInsert : Props → String → String → Props
  | [], k, v => [(k, v)]
  | (k0, v0) :: rest, k, v =>
    if k0 = k then (k0, v) :: rest else (k0, v0) :: dictInsert rest k v

/-- `d.update(other)`: layer `other`'s entries over `d`, pair by pair. -/
def dictUpdate (d : Props) : Props → Props
  | [] => d
  | (k, v) :: rest => dictUpdate (dictInsert d k v) rest

/-- Python `str.upper()` (on the ASCII range used for MAC addresses):
uppercase every character. -/
def strUpper (s : String) : String :=
  ⟨s.data.map Char.toUpper⟩

/-- `pyatv.interface.BaseService`: one service record of a configuration. -/
structure BaseService where
  identifier : Option String
  protocol : Protocol
  port : Nat
  properties : Props
  credentials : Option String
deriving DecidableEq, Repr

/-- Modelled from the spec: `BaseService.merge` lives in `pyatv/interface.py`,
which is not part of the provided sources.  Spec section 3: "the incoming
record's properties are layered over the existing ones (new keys added,
existing keys overwritten by the incoming values), and incoming non-empty
credentials replace existing credentials". -/
def BaseService.merge (self other : BaseService) : BaseService :=
  { self with
    credentials :=
      match other.credentials with
      | some c => if c = "" then self.credentials else some c
      | none => self.credentials
    properties := dictUpdate self.properties other.properties }

/-- `pyatv.exceptions.NoServiceError` carrying its message. -/
structure NoServiceError where
  message : String
deriving DecidableEq, Repr

/-- `pyatv.interface.DeviceInfo` as constructed by `AppleTV.device_info`:
`DeviceInfo(os_type, version, build, lookup_model(model), mac)`. -/
structure DeviceInfo where
  os_type : OperatingSystem
  version : Option String
  build : Option String
  model : Option String
  mac : Option String
deriving DecidableEq, Repr

/-- An IPv4 address; `conf.py` never inspects it, so it is kept opaque. -/
structure IPv4Address where
  raw : String
deriving DecidableEq, Repr

/-- `conf.AppleTV`: address, name and the internal `Dict[Protocol, BaseService]`
(an association list with unique keys, preserving insertion order). -/
structure AppleTV where
  address : IPv4Address
  name : String
  srv : List (Protocol × BaseService)
deriving Repr

/-- `self._services.get(prot)`: first (unique) entry with the given key. -/
def lookupService : List (Protocol × BaseService) → Protocol → Option BaseService
  | [], _ => none
  | (p, s) :: rest, q => if p = q then some s else lookupService rest q

/-- `AppleTV.get_service(protocol)`. -/
def AppleTV.get_service (atv : AppleTV) (protocol : Protocol) : Option BaseService :=
  lookupService atv.srv protocol

/-- `AppleTV.ready`: `has_dmap or has_mrp`. -/
def AppleTV.ready (atv : AppleTV) : Bool :=
  let has_dmap := (lookupService atv.srv Protocol.DMAP).isSome
  let has_mrp := (lookupService atv.srv Protocol.MRP).isSome
  has_dmap || has_mrp

/-- The loop in `AppleTV.identifier`: for each protocol in order, if a service
is present (`if service:` — a service object is always truthy in Python),
return its identifier, null or not. -/
def firstPresentIdentifier (atv : AppleTV) : List Protocol → Option String
  | [] => none
  | prot :: rest =>
    match atv.get_service prot with
    | some service => service.identifier
    | none => firstPresentIdentifier atv rest

/-- `AppleTV.identifier`: identifier of the first present service among
`[MRP, DMAP, AirPlay]`. -/
def AppleTV.identifier (atv : AppleTV) : Option String :=
  firstPresentIdentifier atv [Protocol.MRP, Protocol.DMAP, Protocol.AirPlay]

/-- `AppleTV.services`: the values of the internal map, in insertion order. -/
def AppleTV.services (atv : AppleTV) : List BaseService :=
  atv.srv.map Prod.snd

/-- `AppleTV.all_identifiers`: every registered service's non-null identifier. -/
def AppleTV.all_identifiers (atv : AppleTV) : List String :=
  atv.services.filterMap (fun x => x.identifier)

/-- `AppleTV.add_service` on the internal map: if a record with the same
protocol key exists, merge into it in place; else append a new entry. -/
def addToServices : List (Protocol × BaseService) → BaseService → List (Protocol × BaseService)
  | [], service => [(service.protocol, service)]
  | (p, existing) :: rest, service =>
    if p = service.protocol then (p, existing.merge service) :: rest
    else (p, existing) :: addToServices rest service

/-- `AppleTV.add_service(service)`. -/
def AppleTV.add_service (atv : AppleTV) (service : BaseService) : AppleTV :=
  { atv with srv := addToServices atv.srv service }

/-- The loop in `AppleTV.main_service`: first present service among the
candidate protocols. -/
def firstPresentService (atv : AppleTV) : List Protocol → Option BaseService
  | [] => none
  | prot :: rest =>
    match atv.get_service prot with
    | some service => some service
    | none => firstPresentService atv rest

/-- `AppleTV.main_service(protocol=None)`: candidates are `[protocol]` when
given, else `[MRP, DMAP]`; raises `NoServiceError` when none is present. -/
def AppleTV.main_service (atv : AppleTV) (protocol : Option Protocol) :
    Except NoServiceError BaseService :=
  let protocols :=
    match protocol with
    | some p => [p]
    | none => [Protocol.MRP, Protocol.DMAP]
  match firstPresentService atv protocols with
  | some service => Except.ok service
  | none => Except.error ⟨"no service to connect to"⟩

/-- `service.credentials = credentials` on the (unique) entry for the key. -/
def setCredInServices :
    List (Protocol × BaseService) → Protocol → String → List (Protocol × BaseService)
  | [], _, _ => []
  | (p, s) :: rest, q, c =>
    if p = q then (p, { s with credentials := some c }) :: rest
    else (p, s) :: setCredInServices rest q c

/-- `AppleTV.set_credentials(protocol, credentials)`: the returned `Bool` is the
Python return value, the returned `AppleTV` the post-state. -/
def AppleTV.set_credentials (atv : AppleTV) (protocol : Protocol) (credentials : String) :
    Bool × AppleTV :=
  match atv.get_service protocol with
  | some _ => (true, { atv with srv := setCredInServices atv.srv protocol credentials })
  | none => (false, atv)

/-- The loop in `AppleTV._all_properties`: start from `{}` and `update` with
each service's properties in iteration order. -/
def combineProperties : Props → List BaseService → Props
  | acc, [] => acc
  | acc, service :: rest => combineProperties (dictUpdate acc service.properties) rest

/-- `AppleTV._all_properties()`. -/
def AppleTV.all_properties (atv : AppleTV) : Props :=
  combineProperties [] atv.services

/-- `AppleTV.device_info`, parameterized by the external collaborators
`lookup_model` and `lookup_version` from `pyatv.support.device_info`.
`properties.get("osvers", lookup_version(build))` falls back only on key
absence; `if mac: mac = mac.upper()` skips the empty (falsy) string. -/
def AppleTV.device_info (lookup_model lookup_version : Option String → Option String)
    (atv : AppleTV) : DeviceInfo :=
  let properties := atv.all_properties
  let os_type :=
    if (lookupService atv.srv Protocol.MRP).isSome then OperatingSystem.TvOS
    else if (lookupService atv.srv Protocol.DMAP).isSome then OperatingSystem.Legacy
    else OperatingSystem.Unknown
  let build := dictGet properties "SystemBuildVersion"
  let model := dictGet properties "model"
  let version :=
    match dictGet properties "osvers" with
    | some v => some v
    | none => lookup_version build
  let mac0 :=
    match dictGet properties "macAddress" with
    | some m => some m
    | none => dictGet properties "deviceid"
  let mac :=
    match mac0 with
    | some m => if m = "" then some m else some (strUpper m)
    | none => none
  ⟨os_type, version, build, lookup_model model, mac⟩

/-- `AppleTV.__eq__` between two configurations (the `isinstance` branch):
`self.identifier == other.identifier`, where Python's `None == None` is true. -/
def AppleTV.eq (self other : AppleTV) : Bool :=
  self.identifier == other.identifier

/-! Concrete configurations used as counterexamples and witnesses. -/

/-- An MRP service whose identifier is null. -/
def mrpNullIdService : BaseService :=
  { identifier := none, protocol := Protocol.MRP, port := 49152
    properties := [], credentials := none }

/-- A DMAP service with identifier `"dmap_id"`. -/
def dmapIdService : BaseService :=
  { identifier := some "dmap_id", protocol := Protocol.DMAP, port := 3689
    properties := [], credentials := none }

/-- A configuration holding `mrpNullIdService` and `dmapIdService`. -/
def cfgNullMrp : AppleTV :=
  { address := ⟨"10.0.0.1"⟩, name := "LivingRoom"
    srv := [(Protocol.MRP, mrpNullIdService), (Protocol.DMAP, dmapIdService)] }

/-- An empty configuration at one address. -/
def cfgEmptyA : AppleTV :=
  { address := ⟨"10.0.0.1"⟩, name := "A", srv := [] }

/-- An empty configuration at a different address with a different name. -/
def cfgEmptyB : AppleTV :=
  { address := ⟨"10.0.0.2"⟩, name := "B", srv := [] }

/-- A sample MRP service. -/
def sampleMrp : BaseService :=
  { identifier := some "mrp_id", protocol := Protocol.MRP, port := 49152
    properties := [("SystemBuildVersion", "18J386"), ("macAddress", "aa:bb:cc")]
    credentials := none }

/-- A sample DMAP service. -/
def sampleDmap : BaseService :=
  { identifier := some "dmap_id2", protocol := Protocol.DMAP, port := 3689
    properties := [], credentials := none }

/-- A sample AirPlay service. -/
def sampleAirPlay : BaseService :=
  { identifier := some "ap_id", protocol := Protocol.AirPlay, port := 7000
    properties := [], credentials := some "tok" }

/-- A configuration with MRP and DMAP services. -/
def cfgMrpDmap : AppleTV :=
  { address := ⟨"10.0.0.3"⟩, name := "Both"
    srv := [(Protocol.MRP, sampleMrp), (Protocol.DMAP, sampleDmap)] }

/-- A configuration whose only service is AirPlay. -/
def cfgAirPlayOnly : AppleTV :=
  { address := ⟨"10.0.0.4"⟩, name := "ApOnly"
    srv := [(Protocol.AirPlay, sampleAirPlay)] }

/-- First record used in the double-registration scenario. -/
def apFirst : BaseService :=
  { identifier := some "ap1", protocol := Protocol.AirPlay, port := 7000
    properties := [("a", "1"), ("b", "2")], credentials := none }

/-- Second record for the same protocol, with one conflicting key. -/
def apSecond : BaseService :=
  { identifier := some "ap2", protocol := Protocol.AirPlay, port := 7001
    properties := [("b", "3"), ("c", "4")], credentials := some "cred" }

/-! Helper lemmas about the dictionary and service-map primitives. -/

theorem dictGet_dictInsert (d : Props) (k v q) :
    dictGet (dictInsert d k v) q = if k = q then some v else dictGet d q := by
  induction d with
  | nil => simp [dictInsert, dictGet]
  | cons hd tl ih =>
    obtain ⟨k0, v0⟩ := hd
    by_cases h0 : k0 = k
    · subst h0
      simp [dictInsert, dictGet]
      by_cases hq : k0 = q <;> simp [hq]
    · simp only [dictInsert, if_neg h0, dictGet]
      by_cases hq : k0 = q
      · subst hq
        have : ¬ k = k0 := fun h => h0 h.symm
        simp [this]
      · simp [hq, ih]

theorem dictGet_eq_none_of_not_mem (l : Props) (q : String)
    (h : q ∉ l.map Prod.fst) : dictGet l q = none := by
  induction l with
  | nil => rfl
  | cons hd tl ih =>
    obtain ⟨k, v⟩ := hd
    simp only [List.map_cons, List.mem_cons] at h
    push_neg at h
    simp only [dictGet]
    rw [if_neg (fun hkq => h.1 hkq.symm)]
    exact ih h.2

theorem dictGet_dictUpdate (d other : Props) (q : String)
    (hnd : (other.map Prod.fst).Nodup) :
    dictGet (dictUpdate d other) q =
      match dictGet other q with
      | some v => some v
      | none => dictGet d q := by
  induction other generalizing d with
  | nil => simp [dictUpdate, dictGet]
  | cons hd tl ih =>
    obtain ⟨k, v⟩ := hd
    simp only [List.map_cons, List.nodup_cons] at hnd
    simp only [dictUpdate, dictGet]
    rw [ih (dictInsert d k v) hnd.2]
    by_cases hkq : k = q
    · subst hkq
      have htl : dictGet tl k = none := dictGet_eq_none_of_not_mem tl k hnd.1
      simp [htl, dictGet_dictInsert]
    · rw [if_neg hkq]
      cases htl : dictGet tl q with
      | some w => simp
      | none => simp [dictGet_dictInsert, hkq]

theorem lookupService_eq_none_iff (l : List (Protocol × BaseService)) (q : Protocol) :
    lookupService l q = none ↔ ∀ e ∈ l, e.1 ≠ q := by
  induction l with
  | nil => simp [lookupService]
  | cons hd tl ih =>
    obtain ⟨p, s⟩ := hd
    by_cases hpq : p = q
    · subst hpq
      simp [lookupService]
    · simp [lookupService, hpq, ih]

theorem addToServices_of_absent (l : List (Protocol × BaseService)) (s : BaseService)
    (h : lookupService l s.protocol = none) :
    addToServices l s = l ++ [(s.protocol, s)] := by
  induction l with
  | nil => rfl
  | cons hd tl ih =>
    obtain ⟨p, e⟩ := hd
    by_cases hp : p = s.protocol
    · subst hp
      simp [lookupService] at h
    · simp only [lookupService, if_neg hp] at h
      simp [addToServices, hp, ih h]

theorem addToServices_append_merge (l : List (Protocol × BaseService))
    (s1 s2 : BaseService) (P : Protocol)
    (h : lookupService l P = none) (hp2 : s2.protocol = P) :
    addToServices (l ++ [(P, s1)]) s2 = l ++ [(P, s1.merge s2)] := by
  induction l with
  | nil => simp [addToServices, hp2]
  | cons hd tl ih =>
    obtain ⟨p, e⟩ := hd
    by_cases hp : p = P
    · subst hp
      simp [lookupService] at h
    · simp only [lookupService, if_neg hp] at h
      have hps2 : ¬ p = s2.protocol := by rw [hp2]; exact hp
      simp [addToServices, hps2, ih h]

theorem lookupService_append_self (l : List (Protocol × BaseService))
    (P : Protocol) (r : BaseService) (h : lookupService l P = none) :
    lookupService (l ++ [(P, r)]) P = some r := by
  induction l with
  | nil => simp [lookupService]
  | cons hd tl ih =>
    obtain ⟨p, e⟩ := hd
    by_cases hp : p = P
    · subst hp
      simp [lookupService] at h
    · simp only [lookupService, if_neg hp] at h ⊢
      exact ih h

theorem filter_key_eq_nil (l : List (Protocol × BaseService)) (P : Protocol)
    (h : lookupService l P = none) :
    l.filter (fun e => e.1 == P) = [] := by
  induction l with
  | nil => rfl
  | cons hd tl ih =>
    obtain ⟨p, e⟩ := hd
    by_cases hp : p = P
    · subst hp
      simp [lookupService] at h
    · simp only [lookupService, if_neg hp] at h
      have hb : (p == P) = false := by simp [hp]
      simp [List.filter, hb, ih h]

theorem lookupService_setCred_ne (l : List (Protocol × BaseService))
    (p : Protocol) (c : String) (q : Protocol) (h : q ≠ p) :
    lookupService (setCredInServices l p c) q = lookupService l q := by
  induction l with
  | nil => rfl
  | cons hd tl ih =>
    obtain ⟨p0, s0⟩ := hd
    by_cases hp0 : p0 = p
    · subst hp0
      have : ¬ p0 = q := fun hq => h (hq ▸ rfl)
      simp [setCredInServices, lookupService, this]
    · by_cases hq0 : p0 = q
      · subst hq0
        simp [setCredInServices, lookupService, hp0]
      · simp [setCredInServices, lookupService, hp0, hq0, ih]

theorem lookupService_setCred_eq (l : List (Protocol × BaseService))
    (p : Protocol) (c : String) (s : BaseService)
    (h : lookupService l p = some s) :
    lookupService (setCredInServices l p c) p = some { s with credentials := some c } := by
  induction l with
  | nil => simp [lookupService] at h
  | cons hd tl ih =>
    obtain ⟨p0, s0⟩ := hd
    by_cases hp0 : p0 = p
    · subst hp0
      simp only [lookupService, if_pos rfl] at h
      cases h
      simp [setCredInServices, lookupService]
    · simp only [lookupService, if_neg hp0] at h
      simp [setCredInServices, lookupService, hp0, ih h]

theorem map_fst_setCred (l : List (Protocol × BaseService)) (p : Protocol) (c : String) :
    (setCredInServices l p c).map Prod.fst = l.map Prod.fst := by
  induction l with
  | nil => rfl
  | cons hd tl ih =>
    obtain ⟨p0, s0⟩ := hd
    by_cases hp0 : p0 = p
    · subst hp0
      simp [setCredInServices]
    · simp [setCredInServices, hp0, ih]

/-! Claim theorems. -/

/-- C1 (counterexample): in `cfgNullMrp` an MRP service is present with a null
identifier and a DMAP service is present with identifier `"dmap_id"`, yet
`identifier` resolves to absent — it does not fall back to the DMAP
identifier, refuting the claim that absence implies no registered service has
a non-null identifier. -/
theorem C1_counterexample :
    cfgNullMrp.get_service Protocol.MRP = some mrpNullIdService ∧
    mrpNullIdService.identifier = none ∧
    cfgNullMrp.get_service Protocol.DMAP = some dmapIdService ∧
    dmapIdService.identifier = some "dmap_id" ∧
    cfgNullMrp.identifier = none :=
  ⟨rfl, rfl, rfl, rfl, rfl⟩

/-- C1 (amended): `identifier` resolves to the identifier of the first present
service in priority order MRP, DMAP, AirPlay — even when that identifier is
null — and is absent when no service at all is registered for those
protocols; a null identifier on a higher-priority present service is not
skipped. -/
theorem C1_identifier_priority (atv : AppleTV) :
    (∀ s, atv.get_service Protocol.MRP = some s → atv.identifier = s.identifier) ∧
    (atv.get_service Protocol.MRP = none →
      ∀ s, atv.get_service Protocol.DMAP = some s → atv.identifier = s.identifier) ∧
    (atv.get_service Protocol.MRP = none → atv.get_service Protocol.DMAP = none →
      ∀ s, atv.get_service Protocol.AirPlay = some s → atv.identifier = s.identifier) ∧
    (atv.get_service Protocol.MRP = none → atv.get_service Protocol.DMAP = none →
      atv.get_service Protocol.AirPlay = none → atv.identifier = none) := by
  refine ⟨?_, ?_, ?_, ?_⟩ <;> intros <;>
    simp_all [AppleTV.identifier, firstPresentIdentifier]

/-- C1 (witness): the amended theorem applied to `cfgMrpDmap`, whose MRP
service is present. -/
theorem C1_witness :
    cfgMrpDmap.get_service Protocol.MRP = some sampleMrp ∧
    cfgMrpDmap.identifier = sampleMrp.identifier :=
  ⟨rfl, (C1_identifier_priority cfgMrpDmap).1 sampleMrp rfl⟩

/-- C2 (counterexample): two configurations with different addresses and
names whose resolved identifiers are both absent compare equal — Python's
`None == None` is true — refuting "configurations whose resolved identifiers
are both absent never compare equal to each other". -/
theorem C2_counterexample :
    cfgEmptyA.identifier = none ∧ cfgEmptyB.identifier = none ∧
    cfgEmptyA.address ≠ cfgEmptyB.address ∧
    AppleTV.eq cfgEmptyA cfgEmptyB = true := by
  refine ⟨rfl, rfl, ?_, rfl⟩
  decide

/-- C2 (amended): two configurations compare equal iff their resolved
identifiers are equal — including when both are absent — and the address and
name fields play no role in the comparison. -/
theorem C2_eq_by_identifier (a b : AppleTV) :
    (AppleTV.eq a b = true ↔ a.identifier = b.identifier) ∧
    (∀ addr nm, AppleTV.eq { a with address := addr, name := nm } b = AppleTV.eq a b) := by
  constructor
  · simp [AppleTV.eq]
  · intro addr nm
    rfl

/-- C2 (witness): the amended theorem applied to the two empty sample
configurations. -/
theorem C2_witness :
    (AppleTV.eq cfgEmptyA cfgEmptyB = true ↔ cfgEmptyA.identifier = cfgEmptyB.identifier) ∧
    AppleTV.eq { cfgEmptyA with address := ⟨"10.9.9.9"⟩, name := "Z" } cfgEmptyB =
      AppleTV.eq cfgEmptyA cfgEmptyB :=
  ⟨(C2_eq_by_identifier cfgEmptyA cfgEmptyB).1,
    (C2_eq_by_identifier cfgEmptyA cfgEmptyB).2 ⟨"10.9.9.9"⟩ "Z"⟩

/-- C3: `main_service` without a protocol returns the MRP service when
registered, else the DMAP service when registered, and fails with
`NoServiceError` ("no service to connect to") when neither is registered —
regardless of any AirPlay service; with an explicit protocol only that
protocol is looked up, and its absence is the same error. -/
theorem C3_main_service (atv : AppleTV) :
    (∀ s, atv.get_service Protocol.MRP = some s → atv.main_service none = Except.ok s) ∧
    (atv.get_service Protocol.MRP = none →
      ∀ s, atv.get_service Protocol.DMAP = some s → atv.main_service none = Except.ok s) ∧
    (atv.get_service Protocol.MRP = none → atv.get_service Protocol.DMAP = none →
      atv.main_service none = Except.error ⟨"no service to connect to"⟩) ∧
    (∀ p s, atv.get_service p = some s → atv.main_service (some p) = Except.ok s) ∧
    (∀ p, atv.get_service p = none →
      atv.main_service (some p) = Except.error ⟨"no service to connect to"⟩) := by
  refine ⟨?_, ?_, ?_, ?_, ?_⟩ <;> intros <;>
    simp_all [AppleTV.main_service, firstPresentService]

/-- C3 (witness): `cfgMrpDmap` yields its MRP record; the AirPlay-only
configuration raises `NoServiceError`. -/
theorem C3_witness :
    cfgMrpDmap.get_service Protocol.MRP = some sampleMrp ∧
    cfgMrpDmap.main_service none = Except.ok sampleMrp ∧
    cfgAirPlayOnly.get_service Protocol.MRP = none ∧
    cfgAirPlayOnly.get_service Protocol.DMAP = none ∧
    cfgAirPlayOnly.main_service none = Except.error ⟨"no service to connect to"⟩ :=
  ⟨rfl, (C3_main_service cfgMrpDmap).1 sampleMrp rfl, rfl, rfl,
    (C3_main_service cfgAirPlayOnly).2.2.1 rfl rfl⟩

/-- C4: `ready` is true iff an MRP or DMAP service is registered; it is false
for an empty configuration and for a configuration whose only service is
AirPlay. -/
theorem C4_ready (atv : AppleTV) :
    (atv.ready = true ↔
      ((atv.get_service Protocol.MRP).isSome = true ∨
       (atv.get_service Protocol.DMAP).isSome = true)) ∧
    (atv.srv = [] → atv.ready = false) ∧
    (∀ s, atv.srv = [(Protocol.AirPlay, s)] → atv.ready = false) := by
  refine ⟨?_, ?_, ?_⟩
  · simp [AppleTV.ready, AppleTV.get_service, Bool.or_eq_true, or_comm]
  · intro h
    simp [AppleTV.ready, h, lookupService]
  · intro s h
    simp [AppleTV.ready, h, lookupService]

/-- C4 (witness): the theorem applied to the AirPlay-only and the two-service
configurations. -/
theorem C4_witness :
    cfgAirPlayOnly.srv = [(Protocol.AirPlay, sampleAirPlay)] ∧
    cfgAirPlayOnly.ready = false ∧
    (cfgMrpDmap.ready = true ↔
      ((cfgMrpDmap.get_service Protocol.MRP).isSome = true ∨
       (cfgMrpDmap.get_service Protocol.DMAP).isSome = true)) :=
  ⟨rfl, (C4_ready cfgAirPlayOnly).2.2 sampleAirPlay rfl, (C4_ready cfgMrpDmap).1⟩

/-- C5: registering a record for a protocol `P` and then a second record for
`P` leaves exactly one entry for `P` in the service map — the first record
merged with the second, not a replacement — and for every key the merged
properties give the second record's value when it has the key, else the
first record's value.  (`BaseService.merge` is modelled from the spec, as
`pyatv/interface.py` is not among the sources.) -/
theorem C5_add_service_twice (atv : AppleTV) (P : Protocol) (s1 s2 : BaseService)
    (hp1 : s1.protocol = P) (hp2 : s2.protocol = P)
    (h0 : atv.get_service P = none)
    (hnd : (s2.properties.map Prod.fst).Nodup) :
    ((atv.add_service s1).add_service s2).srv.filter (fun e => e.1 == P) =
        [(P, s1.merge s2)] ∧
    ((atv.add_service s1).add_service s2).get_service P = some (s1.merge s2) ∧
    (∀ k, dictGet (s1.merge s2).properties k =
      match dictGet s2.properties k with
      | some v => some v
      | none => dictGet s1.properties k) := by
  have h0' : lookupService atv.srv s1.protocol = none := by rw [hp1]; exact h0
  have hsrv1 : (atv.add_service s1).srv = atv.srv ++ [(P, s1)] := by
    show addToServices atv.srv s1 = _
    rw [addToServices_of_absent atv.srv s1 h0', hp1]
  have hsrv2 : ((atv.add_service s1).add_service s2).srv = atv.srv ++ [(P, s1.merge s2)] := by
    show addToServices (atv.add_service s1).srv s2 = _
    rw [hsrv1, addToServices_append_merge atv.srv s1 s2 P h0 hp2]
  refine ⟨?_, ?_, ?_⟩
  · rw [hsrv2, List.filter_append, filter_key_eq_nil atv.srv P h0]
    simp [List.filter]
  · show lookupService ((atv.add_service s1).add_service s2).srv P = _
    rw [hsrv2]
    exact lookupService_append_self atv.srv P (s1.merge s2) h0
  · intro k
    show dictGet (dictUpdate s1.properties s2.properties) k = _
    exact dictGet_dictUpdate s1.properties s2.properties k hnd

/-- C5 (witness): two AirPlay records added to an empty configuration; the
conflicting key `"b"` takes the second record's value, the others survive. -/
theorem C5_witness :
    apFirst.protocol = Protocol.AirPlay ∧ apSecond.protocol = Protocol.AirPlay ∧
    cfgEmptyA.get_service Protocol.AirPlay = none ∧
    ((cfgEmptyA.add_service apFirst).add_service apSecond).srv.filter
        (fun e => e.1 == Protocol.AirPlay) = [(Protocol.AirPlay, apFirst.merge apSecond)] ∧
    ((cfgEmptyA.add_service apFirst).add_service apSecond).get_service Protocol.AirPlay =
        some (apFirst.merge apSecond) ∧
    dictGet (apFirst.merge apSecond).properties "b" = some "3" ∧
    dictGet (apFirst.merge apSecond).properties "a" = some "1" ∧
    dictGet (apFirst.merge apSecond).properties "c" = some "4" := by
  have h := C5_add_service_twice cfgEmptyA Protocol.AirPlay apFirst apSecond rfl rfl rfl
    (by decide)
  exact ⟨rfl, rfl, rfl, h.1, h.2.1, by decide, by decide, by decide⟩

/-- C6: `set_credentials` returns true and sets the service's credentials
when a service for the protocol is registered; it returns false with the
configuration unchanged when none is registered. -/
theorem C6_set_credentials (atv : AppleTV) (p : Protocol) (c : String) :
    (∀ s, atv.get_service p = some s →
      (atv.set_credentials p c).1 = true ∧
      ((atv.set_credentials p c).2).get_service p = some { s with credentials := some c }) ∧
    (atv.get_service p = none → atv.set_credentials p c = (false, atv)) := by
  constructor
  · intro s h
    constructor
    · simp [AppleTV.set_credentials, h]
    · simp only [AppleTV.set_credentials, h]
      show lookupService (setCredInServices atv.srv p c) p = _
      exact lookupService_setCred_eq atv.srv p c s h
  · intro h
    simp [AppleTV.set_credentials, h]

/-- C6 (witness): success on the AirPlay-only configuration; the soft false
return — state unchanged — on a configuration with no AirPlay service. -/
theorem C6_witness :
    cfgAirPlayOnly.get_service Protocol.AirPlay = some sampleAirPlay ∧
    (cfgAirPlayOnly.set_credentials Protocol.AirPlay "newcred").1 = true ∧
    ((cfgAirPlayOnly.set_credentials Protocol.AirPlay "newcred").2).get_service
        Protocol.AirPlay = some { sampleAirPlay with credentials := some "newcred" } ∧
    cfgEmptyB.get_service Protocol.AirPlay = none ∧
    cfgEmptyB.set_credentials Protocol.AirPlay "token" = (false, cfgEmptyB) := by
  have h1 := (C6_set_credentials cfgAirPlayOnly Protocol.AirPlay "newcred").1 sampleAirPlay rfl
  have h2 := (C6_set_credentials cfgEmptyB Protocol.AirPlay "token").2 rfl
  exact ⟨rfl, h1.1, h1.2, rfl, h2⟩

/-- C7: `device_info.os_type` is TvOS when an MRP service is registered
(regardless of DMAP), else Legacy when a DMAP service is registered, else
Unknown. -/
theorem C7_os_type (lm lv : Option String → Option String) (atv : AppleTV) :
    ((atv.get_service Protocol.MRP).isSome = true →
      (atv.device_info lm lv).os_type = OperatingSystem.TvOS) ∧
    (atv.get_service Protocol.MRP = none → (atv.get_service Protocol.DMAP).isSome = true →
      (atv.device_info lm lv).os_type = OperatingSystem.Legacy) ∧
    (atv.get_service Protocol.MRP = none → atv.get_service Protocol.DMAP = none →
      (atv.device_info lm lv).os_type = OperatingSystem.Unknown) := by
  refine ⟨?_, ?_, ?_⟩ <;> intros <;>
    simp_all [AppleTV.device_info, AppleTV.get_service]

/-- C7 (witness): `cfgMrpDmap` has both MRP and DMAP registered and its
`os_type` is TvOS. -/
theorem C7_witness :
    (cfgMrpDmap.get_service Protocol.MRP).isSome = true ∧
    (cfgMrpDmap.get_service Protocol.DMAP).isSome = true ∧
    (cfgMrpDmap.device_info (fun _ => none) (fun _ => none)).os_type = OperatingSystem.TvOS :=
  ⟨rfl, rfl, (C7_os_type (fun _ => none) (fun _ => none) cfgMrpDmap).1 rfl⟩

/-- C8: `device_info.mac` is the combined-properties value of `macAddress`,
or failing that of `deviceid`, upper-cased when found, and absent when
neither key is present. -/
theorem C8_mac (lm lv : Option String → Option String) (atv : AppleTV) :
    (∀ m, dictGet atv.all_properties "macAddress" = some m →
      (atv.device_info lm lv).mac = some (strUpper m)) ∧
    (dictGet atv.all_properties "macAddress" = none →
      ∀ m, dictGet atv.all_properties "deviceid" = some m →
        (atv.device_info lm lv).mac = some (strUpper m)) ∧
    (dictGet atv.all_properties "macAddress" = none →
      dictGet atv.all_properties "deviceid" = none →
      (atv.device_info lm lv).mac = none) := by
  have hup : ∀ m : String, (if m = "" then some m else some (strUpper m)) = some (strUpper m) := by
    intro m
    by_cases hm : m = ""
    · subst hm
      rfl
    · rw [if_neg hm]
  have hmac : (atv.device_info lm lv).mac =
      (match (match dictGet atv.all_properties "macAddress" with
              | some m => some m
              | none => dictGet atv.all_properties "deviceid") with
       | some m => if m = "" then some m else some (strUpper m)
       | none => none) := rfl
  refine ⟨?_, ?_, ?_⟩
  · intro m h
    rw [hmac, h]
    exact hup m
  · intro h1 m h2
    rw [hmac, h1, h2]
    exact hup m
  · intro h1 h2
    rw [hmac, h1, h2]

/-- C8 (witness): the spec's example — a service property
`macAddress="aa:bb:cc"` yields mac `"AA:BB:CC"`. -/
theorem C8_witness :
    dictGet cfgMrpDmap.all_properties "macAddress" = some "aa:bb:cc" ∧
    (cfgMrpDmap.device_info (fun _ => none) (fun _ => none)).mac = some "AA:BB:CC" := by
  have h := (C8_mac (fun _ => none) (fun _ => none) cfgMrpDmap).1 "aa:bb:cc" (by decide)
  refine ⟨by decide, ?_⟩
  rw [h]
  decide

/-- C9: with no registered services, `device_info` has all derived fields
absent and `os_type` Unknown, provided the collaborators `lookup_model` and
`lookup_version` are absent-in/absent-out. -/
theorem C9_empty_device_info (lm lv : Option String → Option String)
    (hm : lm none = none) (hv : lv none = none)
    (atv : AppleTV) (h : atv.srv = []) :
    atv.device_info lm lv =
      { os_type := OperatingSystem.Unknown, version := none, build := none
        model := none, mac := none } := by
  simp [AppleTV.device_info, AppleTV.all_properties, AppleTV.services, h,
    combineProperties, lookupService, dictGet, hm, hv]

/-- C9 (witness): the theorem applied to an empty configuration with
constantly-absent collaborators. -/
theorem C9_witness :
    ((fun _ : Option String => (none : Option String)) none = none) ∧
    cfgEmptyA.srv = [] ∧
    cfgEmptyA.device_info (fun _ => none) (fun _ => none) =
      { os_type := OperatingSystem.Unknown, version := none, build := none
        model := none, mac := none } :=
  ⟨rfl, rfl, C9_empty_device_info (fun _ => none) (fun _ => none) rfl rfl cfgEmptyA rfl⟩

/-- C10: when a service for protocol `p` is registered, `set_credentials p c`
changes only that service's credentials: address, name, the set of
registered protocols, every other protocol's lookup, and the service's own
identifier, protocol, port and properties are unchanged. -/
theorem C10_set_credentials_frame (atv : AppleTV) (p : Protocol) (c : String)
    (s : BaseService) (h : atv.get_service p = some s) :
    ((atv.set_credentials p c).2).address = atv.address ∧
    ((atv.set_credentials p c).2).name = atv.name ∧
    ((atv.set_credentials p c).2).srv.map Prod.fst = atv.srv.map Prod.fst ∧
    (∀ q, q ≠ p → ((atv.set_credentials p c).2).get_service q = atv.get_service q) ∧
    (∃ s2, ((atv.set_credentials p c).2).get_service p = some s2 ∧
      s2.identifier = s.identifier ∧ s2.protocol = s.protocol ∧ s2.port = s.port ∧
      s2.properties = s.properties ∧ s2.credentials = some c) := by
  have hpost : (atv.set_credentials p c).2 =
      { atv with srv := setCredInServices atv.srv p c } := by
    simp [AppleTV.set_credentials, h]
  refine ⟨?_, ?_, ?_, ?_, ?_⟩
  · rw [hpost]
  · rw [hpost]
  · rw [hpost]
    exact map_fst_setCred atv.srv p c
  · intro q hq
    rw [hpost]
    show lookupService (setCredInServices atv.srv p c) q = lookupService atv.srv q
    exact lookupService_setCred_ne atv.srv p c q hq
  · refine ⟨{ s with credentials := some c }, ?_, rfl, rfl, rfl, rfl, rfl⟩
    rw [hpost]
    show lookupService (setCredInServices atv.srv p c) p = _
    exact lookupService_setCred_eq atv.srv p c s h

/-- C10 (witness): the frame theorem applied to `cfgMrpDmap` at MRP — the
DMAP lookup and the name are untouched. -/
theorem C10_witness :
    cfgMrpDmap.get_service Protocol.MRP = some sampleMrp ∧
    ((cfgMrpDmap.set_credentials Protocol.MRP "cc").2).name = cfgMrpDmap.name ∧
    ((cfgMrpDmap.set_credentials Protocol.MRP "cc").2).get_service Protocol.DMAP =
      cfgMrpDmap.get_service Protocol.DMAP := by
  have h := C10_set_credentials_frame cfgMrpDmap Protocol.MRP "cc" sampleMrp rfl
  exact ⟨rfl, h.2.1, h.2.2.2.1 Protocol.DMAP (by decide)⟩

end PyatvConf
